import Mathlib

/-!
Verification of the Datacrumbs sales-assistant chat application (`src/app.py`)
against its natural-language specification.

The application is a single-file Streamlit program.  Its pure logic is embedded
below as Lean functions:

* `load_website_content` (app.py lines 70-113): the network fetch performed by
  `WebBaseLoader.load()` is an external effect, modelled by a `LoadOutcome`
  parameter (either the exception text raised, or the list of documents
  returned).
* `get_answer` (app.py lines 115-170): the remote Groq chat-completion call is
  an external effect, modelled by a `ModelOutcome` parameter (either the
  response text, or the text of the exception raised anywhere inside the
  `try` block).  Exception dispatch in the `except` clause (lines 162-170)
  branches on case-insensitive substring tests over `str(e)`; `classifyErr`
  reproduces that if/elif chain.
* `processTurn` (app.py lines 242-260): one question/answer interaction of the
  main script, tracking the chat history list and whether a turn was executed.
* The text chunker and the prompt assembly are performed by the third-party
  langchain library (`CharacterTextSplitter`, `load_qa_chain`), whose code is
  not part of this repository; those two pieces are modelled from the
  specification (sections 4.2 and 4.3), as marked on their definitions.
-/

/-- A langchain `Document` as used by `app.py`: only its `page_content` text
matters to the logic under verification. -/
structure Document where
  page_content : String
deriving DecidableEq

/-- Outcome of the external `WebBaseLoader.load()` call in
`load_website_content`: either an exception (carrying its `str(e)` text) or a
list of loaded documents. -/
inductive LoadOutcome where
  | failure (errText : String)
  | success (documents : List Document)

/-- Outcome of the code inside the `try` block of `get_answer` past the
empty-document guard (the `ChatGroq` construction and `chain.run` call):
either the model response text or the `str(e)` text of the raised exception. -/
inductive ModelOutcome where
  | success (response : String)
  | failure (errText : String)

/-- Lowercased character list of a string, modelling Python `str.lower()`
(ASCII case mapping, which is all the dispatch patterns need). -/
def lowerChars (s : String) : List Char :=
  s.toList.map Char.toLower

/-- Substring test on character lists: `needle` occurs contiguously inside
`haystack`. -/
def listContains (needle haystack : List Char) : Bool :=
  (List.range (haystack.length + 1)).any (fun i => needle.isPrefixOf (haystack.drop i))

/-- Python `pat in str(e).lower()` for a lowercase literal `pat`, as used on
app.py lines 163-167. -/
def hasSub (e pat : String) : Bool :=
  listContains pat.toList (lowerChars e)

/-- The failure taxonomy of `get_answer`'s `except` clause. -/
inductive ErrKind where
  | quota
  | auth
  | timeout
  | generic
deriving DecidableEq

/-- The if/elif dispatch of app.py lines 163-169, in source order: first
`"quota" in str(e).lower() or "limit" in str(e).lower() or "rate" in
str(e).lower()`, then `"api" in ... and "key" in ...`, then
`"timeout" in ...`, else the generic bucket. -/
def classifyErr (e : String) : ErrKind :=
  if hasSub e "quota" || hasSub e "limit" || hasSub e "rate" then .quota
  else if hasSub e "api" && hasSub e "key" then .auth
  else if hasSub e "timeout" then .timeout
  else .generic

/-- app.py line 120: returned when the document list is empty. -/
def contentNotAvailableMsg : String :=
  "❌ **Website Content Not Available**\n\nI need to load the Datacrumbs website content first to answer your questions. Please wait for the content to load or refresh the page."

/-- app.py line 164: quota / rate-limit fallback. -/
def rateLimitMsg : String :=
  "⚠️ **API Rate Limit Reached**\n\nGroq API rate limit exceeded. Please wait a moment and try again."

/-- app.py line 166: API-key configuration fallback. -/
def configErrorMsg : String :=
  "🔑 **Service Configuration Error**\n\nPlease contact support - there\x27s an issue with our Groq API configuration."

/-- app.py line 168: timeout fallback. -/
def timeoutMsg : String :=
  "⏱️ **Request Timeout**\n\nThe request took too long. Please try a simpler question or try again."

/-- app.py line 170: generic fallback, which interpolates `str(e)` after the
fixed apology text. -/
def genericErrorMsg (e : String) : String :=
  "❌ **Service Error**\n\nSorry, I\x27m experiencing technical difficulties. Please try again or contact Datacrumbs directly.\n\nError details: " ++ e

/-- app.py line 160: wrapper around a successful model response. -/
def successWrap (response : String) : String :=
  "🛍️ **Datacrumbs Sales Assistant (via Groq ⚡):**\n\n" ++ response ++ "\n\n---\n*Need more information? Contact Datacrumbs directly for detailed assistance.*"

/-- Embedding of `get_answer` (app.py lines 115-170).  The first component is
the returned string; the second records whether control reached the model
invocation (the `ChatGroq`/`chain.run` part of the `try` block), which happens
exactly when the document list is non-empty.  The `question`, API key and
model name do not influence which string is returned, so the latter two are
omitted; `question` is kept because it is a declared parameter of the source
function. -/
def get_answer (question : String) (documents : List Document)
    (outcome : ModelOutcome) : String × Bool :=
  if documents.isEmpty then
    (contentNotAvailableMsg, false)
  else
    match outcome with
    | .success r => (successWrap r, true)
    | .failure e =>
        (match classifyErr e with
         | .quota => rateLimitMsg
         | .auth => configErrorMsg
         | .timeout => timeoutMsg
         | .generic => genericErrorMsg e, true)

/-- Bounded-fuel worker for the chunker; `chunk` below supplies enough fuel
that the fuel never runs out. -/
def chunkAux : Nat → Nat → Nat → List Char → List (List Char)
  | 0, _, _, text => [text]
  | fuel + 1, size, overlap, text =>
      if size < text.length ∧ overlap < size then
        text.take size :: chunkAux fuel size overlap (text.drop (size - overlap))
      else [text]

/-- Modelled from the spec: the chunking in `load_website_content` (app.py
lines 97-104) is performed by langchain's `CharacterTextSplitter`, whose
implementation is not part of this repository.  Section 4.2 of the
specification gives the Chunker contract: overlapping fixed-size windows, each
chunk except the last of length exactly `size`, consecutive chunks sharing
exactly `overlap` characters, a short text returned as a single chunk.  This
is the sliding window with stride `size - overlap` ending as soon as a window
reaches the end of the text. -/
def chunk (size overlap : Nat) (text : List Char) : List (List Char) :=
  chunkAux text.length size overlap text

/-- De-overlapped concatenation of a chunk list: the first chunk, then every
later chunk with its leading `overlap` characters removed. -/
def deoverlap (overlap : Nat) : List (List Char) → List Char
  | [] => []
  | c :: cs => c ++ ((cs.map (fun d => d.drop overlap)).flatten)

/-- Modelled from the spec: `text_splitter.split_documents(documents)` at
app.py line 104 is langchain library code not in this repository; per the
configuration at lines 97-101 each document is split with chunk size 2000 and
overlap 200 (spec section 4.2), each chunk becoming one output document. -/
def split_documents (docs : List Document) : List Document :=
  docs.flatMap (fun d =>
    (chunk 2000 200 d.page_content.toList).map (fun cs => ⟨String.mk cs⟩))

/-- Embedding of `load_website_content` (app.py lines 70-113).  On an
exception from the loader (network error, timeout, non-200 turned into a
raise, parser exception) the `except` clause at lines 110-113 returns `[]`;
if the loader returns no documents, line 90 returns `[]`; otherwise the
documents are split and returned. -/
def load_website_content (outcome : LoadOutcome) : List Document :=
  match outcome with
  | .failure _ => []
  | .success docs =>
      if docs.isEmpty then []
      else split_documents docs

/-- Embedding of one question/answer interaction of the main script (app.py
lines 242-260).  `current_question = question if ask_button else
quick_question` (line 242); a falsy value (`None` or the empty string) skips
the turn; otherwise `get_answer` runs and `(question, answer)` is appended to
`chat_history` (line 260).  The first component is the resulting history, the
second records whether a turn was executed (i.e. whether `get_answer` was
called). -/
def processTurn (askButton : Bool) (question : String)
    (quickQuestion : Option String) (history : List (String × String))
    (documents : List Document) (outcome : ModelOutcome) :
    List (String × String) × Bool :=
  let currentQuestion : Option String :=
    if askButton then some question else quickQuestion
  match currentQuestion with
  | none => (history, false)
  | some q =>
      if q = "" then (history, false)
      else (history ++ [(q, (get_answer q documents outcome).1)], true)

/-- The three roles of a chat-completion message. -/
inductive Role where
  | system
  | user
  | assistant
deriving DecidableEq, BEq

/-- A role-tagged chat message. -/
structure Message where
  role : Role
  content : String
deriving DecidableEq

/-- Modelled from the spec: the message list submitted to the chat-completion
endpoint is assembled inside langchain's `load_qa_chain` (app.py lines
132-158), library code not in this repository.  Section 4.3 of the
specification gives the Prompt Assembler contract: one system message carrying
instructions plus the retrieved content, followed by the prior exchange of
user/assistant pairs, followed by the new user question. -/
def assemble_messages (instructions content : String)
    (history : List (String × String)) (question : String) : List Message :=
  ⟨.system, instructions ++ content⟩ ::
    (history.flatMap (fun p => [⟨.user, p.1⟩, ⟨.assistant, p.2⟩])
      ++ [⟨.user, question⟩])

/-! ### Chunker theory -/

/-- `chunkAux` does not depend on the fuel once the fuel is at least the text
length: each recursion step shortens the text by at least one character. -/
theorem chunkAux_fuel_irrel (size overlap : Nat) :
    ∀ fuel text, text.length ≤ fuel →
      chunkAux fuel size overlap text = chunkAux text.length size overlap text := by
  intro fuel
  induction fuel using Nat.strong_induction_on with
  | _ fuel ih =>
    intro text hle
    cases fuel with
    | zero =>
      have htext : text = [] := List.length_eq_zero.mp (Nat.le_zero.mp hle)
      subst htext
      rfl
    | succ f =>
      cases text with
      | nil => rfl
      | cons a t =>
        simp only [List.length_cons] at hle ⊢
        simp only [chunkAux, List.length_cons]
        by_cases hc : size < t.length + 1 ∧ overlap < size
        · rw [if_pos hc, if_pos hc]
          congr 1
          have hu : ((a :: t).drop (size - overlap)).length
              = t.length + 1 - (size - overlap) := by
            simp [List.length_drop]
          rw [ih f (Nat.lt_succ_self f) _ (by omega),
            ih t.length (by omega) _ (by omega)]
        · rw [if_neg hc, if_neg hc]

/-- One-step unfolding of `chunk`: emit a window of `size` characters and
recurse on the text minus the stride `size - overlap`, stopping as soon as a
window reaches the end of the text. -/
theorem chunk_eq (size overlap : Nat) (text : List Char) :
    chunk size overlap text =
      if size < text.length ∧ overlap < size then
        text.take size :: chunk size overlap (text.drop (size - overlap))
      else [text] := by
  unfold chunk
  cases text with
  | nil =>
    rw [if_neg (by simp)]
    rfl
  | cons a t =>
    simp only [List.length_cons, chunkAux]
    by_cases hc : size < t.length + 1 ∧ overlap < size
    · rw [if_pos hc, if_pos hc]
      congr 1
      have hu : ((a :: t).drop (size - overlap)).length
          = t.length + 1 - (size - overlap) := by
        simp [List.length_drop]
      exact chunkAux_fuel_irrel size overlap t.length _ (by omega)
    · rw [if_neg hc, if_neg hc]

/-- Dropping the leading `overlap` characters of every chunk and concatenating
yields the text minus its first `overlap` characters: the windows tile the
text once their overlaps are removed. -/
theorem chunk_flatten_drop (size overlap : Nat) (h : overlap < size)
    (text : List Char) :
    ((chunk size overlap text).map (fun c => c.drop overlap)).flatten
      = text.drop overlap := by
  rw [chunk_eq]
  by_cases hc : size < text.length ∧ overlap < size
  · rw [if_pos hc]
    rw [List.map_cons, List.flatten_cons]
    rw [chunk_flatten_drop size overlap h (text.drop (size - overlap))]
    rw [List.drop_take, List.drop_drop]
    have h1 : size - overlap + overlap = size := by omega
    rw [h1]
    have h2 : List.drop size text
        = List.drop (size - overlap) (List.drop overlap text) := by
      rw [List.drop_drop]
      congr 1
      omega
    rw [h2, List.take_append_drop]
  · rw [if_neg hc]
    simp
termination_by text.length
decreasing_by
  simp only [List.length_drop]
  omega

/-- The first chunk of any text agrees with the text on the first `overlap`
characters. -/
theorem chunk_head_take (size overlap : Nat) (h : overlap ≤ size)
    (t : List Char) :
    ∀ b ∈ (chunk size overlap t).head?, b.take overlap = t.take overlap := by
  rw [chunk_eq]
  by_cases hc : size < t.length ∧ overlap < size
  · rw [if_pos hc]
    intro b hb
    simp only [List.head?_cons, Option.mem_def, Option.some.injEq] at hb
    subst hb
    rw [List.take_take]
    congr 1
    omega
  · rw [if_neg hc]
    intro b hb
    simp only [List.head?_cons, Option.mem_def, Option.some.injEq] at hb
    subst hb
    rfl

/-- Every chunk that has a successor has length exactly `size`, and its last
`overlap` characters equal the first `overlap` characters of that successor. -/
theorem chunk_shape (size overlap : Nat) (h : overlap < size) (text : List Char) :
    List.Chain'
      (fun c c' => c.length = size ∧ c.drop (size - overlap) = c'.take overlap)
      (chunk size overlap text) := by
  rw [chunk_eq]
  by_cases hc : size < text.length ∧ overlap < size
  · rw [if_pos hc]
    rw [List.chain'_cons']
    constructor
    · intro b hb
      constructor
      · rw [List.length_take]
        omega
      · rw [chunk_head_take size overlap (Nat.le_of_lt h) _ b hb]
        rw [List.drop_take]
        congr 1
        omega
    · exact chunk_shape size overlap h (text.drop (size - overlap))
  · rw [if_neg hc]
    exact List.chain'_singleton text
termination_by text.length
decreasing_by
  simp only [List.length_drop]
  omega

/-! ### Claim theorems for the Chunker -/

/-- Claim C3: for every text and every `(size, overlap)` with
`overlap < size`, the chunks produced by the chunker, de-overlapped (first
chunk kept whole, each later chunk stripped of its leading `overlap`
characters) and concatenated, reproduce the original text exactly. -/
theorem c3_chunk_roundtrip (size overlap : Nat) (text : List Char)
    (h : overlap < size) :
    deoverlap overlap (chunk size overlap text) = text := by
  rw [chunk_eq]
  by_cases hc : size < text.length ∧ overlap < size
  · rw [if_pos hc]
    simp only [deoverlap]
    rw [chunk_flatten_drop size overlap h (text.drop (size - overlap))]
    rw [List.drop_drop]
    have h1 : size - overlap + overlap = size := by omega
    rw [h1, List.take_append_drop]
  · rw [if_neg hc]
    simp [deoverlap]

/-- Witness for C3 at a concrete input: size 3, overlap 1 on "HELLO WORLD". -/
theorem c3_chunk_roundtrip_witness :
    1 < 3 ∧ deoverlap 1 (chunk 3 1 "HELLO WORLD".toList) = "HELLO WORLD".toList :=
  ⟨by decide, c3_chunk_roundtrip 3 1 "HELLO WORLD".toList (by decide)⟩

/-- Claim C5: for every text and every `(size, overlap)` with
`overlap < size`, every produced chunk except the last has length exactly
`size` and each pair of consecutive chunks overlaps by exactly `overlap`
characters (the last `overlap` characters of one are the first `overlap`
characters of the next); in particular `chunk "ABCDEFGHIJ" 4 1` yields
`["ABCD", "DEFG", "GHIJ"]`.  `List.Chain'` relates every chunk that has a
successor (i.e. every chunk except the last) to that successor. -/
theorem c5_chunk_sizes_and_overlaps :
    (∀ size overlap : Nat, ∀ text : List Char, overlap < size →
      List.Chain'
        (fun c c' => c.length = size ∧ c.drop (size - overlap) = c'.take overlap)
        (chunk size overlap text))
    ∧ chunk 4 1 "ABCDEFGHIJ".toList
        = ["ABCD".toList, "DEFG".toList, "GHIJ".toList] :=
  ⟨fun size overlap text h => chunk_shape size overlap h text, by decide⟩

/-- Witness for C5 at a concrete input: size 4, overlap 1 on "ABCDEFGHIJ". -/
theorem c5_chunk_sizes_and_overlaps_witness :
    1 < 4 ∧
    List.Chain' (fun c c' => c.length = 4 ∧ c.drop (4 - 1) = c'.take 1)
      (chunk 4 1 "ABCDEFGHIJ".toList) :=
  ⟨by decide, c5_chunk_sizes_and_overlaps.1 4 1 "ABCDEFGHIJ".toList (by decide)⟩

/-- Claim C8: every text strictly shorter than the chunk size is returned as
exactly one chunk equal to the whole input. -/
theorem c8_short_text_single_chunk (size overlap : Nat) (text : List Char)
    (h : text.length < size) :
    chunk size overlap text = [text] := by
  have hnc : ¬(size < text.length ∧ overlap < size) := by omega
  rw [chunk_eq, if_neg hnc]

/-- Witness for C8 at a concrete input: "HI" with chunk size 5. -/
theorem c8_short_text_single_chunk_witness :
    ("HI".toList).length < 5 ∧ chunk 5 2 "HI".toList = ["HI".toList] :=
  ⟨by decide, c8_short_text_single_chunk 5 2 "HI".toList (by decide)⟩

/-! ### Claim theorems for the Prompt Assembler -/

/-- Recogniser for system-role messages. -/
def isSystemRole (m : Message) : Bool :=
  match m.role with
  | .system => true
  | _ => false

/-- The user/assistant pairs of the conversation history contribute no
system-role message. -/
theorem history_messages_no_system (history : List (String × String)) :
    (history.flatMap
        (fun p => [Message.mk .user p.1, Message.mk .assistant p.2])).filter
      isSystemRole = [] := by
  induction history with
  | nil => rfl
  | cons p t ih =>
    rw [List.flatMap_cons, List.filter_append, ih]
    rfl

/-- Claim C4: for every conversation history, the assembled message list
contains exactly one system-role entry, it sits at index 0, and it carries the
instruction template followed by the retrieved content.  The filter equation
states that the system entries of the whole list are exactly the one head
entry. -/
theorem c4_single_system_message (instructions content question : String)
    (history : List (String × String)) :
    (assemble_messages instructions content history question).head?
        = some ⟨.system, instructions ++ content⟩
    ∧ (assemble_messages instructions content history question).filter
        isSystemRole = [⟨.system, instructions ++ content⟩] := by
  constructor
  · rfl
  · simp only [assemble_messages, List.filter_cons, List.filter_append,
      isSystemRole, history_messages_no_system, List.filter, if_true,
      List.nil_append]

/-! ### Claim theorems for the Content Acquirer -/

/-- Claim C1 counterexample: when the single fetch fails (the loader raises),
`load_website_content` returns the empty list — not non-empty fallback
content as the claim states. -/
theorem c1_counterexample :
    load_website_content
      (.failure "ConnectionError: failed to reach http://www.datacrumbs.org")
      = [] := by
  rfl

/-- Claim C1 (amended): whenever every fetch fails — the loader raises, or it
returns no documents — `load_website_content` returns the empty list (after
displaying an error in the UI); the user-facing fallback text for missing
content is produced later, by `get_answer`, not by the acquirer. -/
theorem c1_amended_empty_on_failure (e : String) :
    load_website_content (.failure e) = []
    ∧ load_website_content (.success []) = [] :=
  ⟨rfl, rfl⟩

/-! ### Claim theorems for the Remote Model Invoker -/

set_option maxRecDepth 40000 in
/-- Claim C2 counterexample: in the generic (uncategorized) failure branch the
returned message embeds the raw exception text after "Error details:", so the
returned string both contains the raw exception text and differs between two
generic exceptions — it is not a fixed fallback string. -/
theorem c2_counterexample :
    listContains "unexpected null value".toList
        ((get_answer "q" [⟨"web content"⟩]
            (.failure "unexpected null value")).1.toList) = true
    ∧ (get_answer "q" [⟨"web content"⟩] (.failure "unexpected null value")).1
        ≠ (get_answer "q" [⟨"web content"⟩] (.failure "some other problem")).1 := by
  constructor
  · decide
  · decide

/-- Claim C2 (amended): for every exception raised during the model
invocation, `get_answer` returns a polite fallback message: in the quota,
API-key and timeout categories the message is a fixed string depending only on
the category (not on the exception), while in the generic category it is the
fixed apology text with the raw exception text appended after it as error
details. -/
theorem c2_amended_fallbacks (question : String) (documents : List Document)
    (e e' : String) (hdocs : documents ≠ []) :
    (classifyErr e = classifyErr e' → classifyErr e ≠ .generic →
      (get_answer question documents (.failure e)).1
        = (get_answer question documents (.failure e')).1)
    ∧ (classifyErr e = .generic →
      (get_answer question documents (.failure e)).1 = genericErrorMsg e) := by
  cases documents with
  | nil => exact absurd rfl hdocs
  | cons a t =>
    constructor
    · intro hsame hng
      have h2 : classifyErr e' = classifyErr e := hsame.symm
      cases hcls : classifyErr e with
      | quota =>
        rw [hcls] at h2
        simp [get_answer, hcls, h2]
      | auth =>
        rw [hcls] at h2
        simp [get_answer, hcls, h2]
      | timeout =>
        rw [hcls] at h2
        simp [get_answer, hcls, h2]
      | generic => exact absurd hcls hng
    · intro hg
      simp [get_answer, hg]

/-- Witness for the amended C2 at concrete inputs: two quota-category
exceptions yield the same fixed message. -/
theorem c2_amended_fallbacks_witness :
    ([⟨"web content"⟩] : List Document) ≠ [] ∧
    ((classifyErr "Rate limit hit" = classifyErr "quota exceeded" →
        classifyErr "Rate limit hit" ≠ .generic →
        (get_answer "q" [⟨"web content"⟩] (.failure "Rate limit hit")).1
          = (get_answer "q" [⟨"web content"⟩] (.failure "quota exceeded")).1)
      ∧ (classifyErr "Rate limit hit" = .generic →
        (get_answer "q" [⟨"web content"⟩] (.failure "Rate limit hit")).1
          = genericErrorMsg "Rate limit hit")) :=
  ⟨by decide,
    c2_amended_fallbacks "q" [⟨"web content"⟩] "Rate limit hit" "quota exceeded"
      (by decide)⟩

/-- Claim C7: when the model client raises a quota / rate-limit error (one the
dispatch of lines 163-164 classifies as quota), `get_answer` returns the
designated rate-limit fallback string. -/
theorem c7_quota_fallback (question : String) (documents : List Document)
    (e : String) (hdocs : documents ≠ []) (hq : classifyErr e = .quota) :
    (get_answer question documents (.failure e)).1 = rateLimitMsg := by
  cases documents with
  | nil => exact absurd rfl hdocs
  | cons a t => simp [get_answer, hq]

/-- Witness for C7 at a concrete input. -/
theorem c7_quota_fallback_witness :
    ([⟨"Datacrumbs content"⟩] : List Document) ≠ [] ∧
    classifyErr "Rate limit reached for requests" = .quota ∧
    (get_answer "What services do you offer?" [⟨"Datacrumbs content"⟩]
        (.failure "Rate limit reached for requests")).1 = rateLimitMsg :=
  ⟨by decide, by decide,
    c7_quota_fallback "What services do you offer?" [⟨"Datacrumbs content"⟩]
      "Rate limit reached for requests" (by decide) (by decide)⟩

/-- Claim C6: when the model call raises a timeout exception (one the dispatch
of lines 167-168 classifies as timeout) during a question/answer turn, the
answer returned by `get_answer` is exactly the configured timeout fallback
string, and the conversation history grows by exactly one entry for that
turn, carrying that fallback as its answer. -/
theorem c6_timeout_turn (question e : String)
    (history : List (String × String)) (documents : List Document)
    (hdocs : documents ≠ []) (hq : question ≠ "")
    (he : classifyErr e = .timeout) :
    (get_answer question documents (.failure e)).1 = timeoutMsg
    ∧ (processTurn true question none history documents (.failure e)).1
        = history ++ [(question, timeoutMsg)]
    ∧ (processTurn true question none history documents (.failure e)).1.length
        = history.length + 1 := by
  have hans : (get_answer question documents (.failure e)).1 = timeoutMsg := by
    cases documents with
    | nil => exact absurd rfl hdocs
    | cons a t => simp [get_answer, he]
  refine ⟨hans, ?_, ?_⟩
  · simp [processTurn, hq, hans]
  · simp [processTurn, hq]

/-- Witness for C6 at a concrete input: a one-entry history grows to two
entries and records the timeout fallback. -/
theorem c6_timeout_turn_witness :
    ([⟨"Datacrumbs info"⟩] : List Document) ≠ [] ∧
    "What is Datacrumbs?" ≠ "" ∧
    classifyErr "Request timeout after 30 seconds" = .timeout ∧
    ((get_answer "What is Datacrumbs?" [⟨"Datacrumbs info"⟩]
        (.failure "Request timeout after 30 seconds")).1 = timeoutMsg
    ∧ (processTurn true "What is Datacrumbs?" none [("Hi", "Hello")]
        [⟨"Datacrumbs info"⟩] (.failure "Request timeout after 30 seconds")).1
        = [("Hi", "Hello")] ++ [("What is Datacrumbs?", timeoutMsg)]
    ∧ (processTurn true "What is Datacrumbs?" none [("Hi", "Hello")]
        [⟨"Datacrumbs info"⟩] (.failure "Request timeout after 30 seconds")).1.length
        = [("Hi", "Hello")].length + 1) :=
  ⟨by decide, by decide, by decide,
    c6_timeout_turn "What is Datacrumbs?" "Request timeout after 30 seconds"
      [("Hi", "Hello")] [⟨"Datacrumbs info"⟩] (by decide) (by decide) (by decide)⟩

/-! ### Claim theorems for the interaction loop -/

/-- Claim C9: when the submitted question is the empty string, the turn is
skipped entirely: `get_answer` (and with it the model) is not invoked — the
executed flag is `false` — and the conversation history is returned
unchanged. -/
theorem c9_empty_question_no_turn (quickQuestion : Option String)
    (history : List (String × String)) (documents : List Document)
    (outcome : ModelOutcome) :
    processTurn true "" quickQuestion history documents outcome
      = (history, false) := by
  rfl

/-- Claim C10: `get_answer` is a total function into message strings — no
exception escapes to its caller.  When the document list is empty it returns
the fixed content-not-available message with the model not invoked, and every
exception raised inside the turn is mapped to one of the fallback message
strings (the quota, configuration, timeout, or generic message, the last
carrying the exception text as appended detail). -/
theorem c10_get_answer_total (question : String) (documents : List Document)
    (outcome : ModelOutcome) :
    (documents = [] →
      get_answer question documents outcome = (contentNotAvailableMsg, false))
    ∧ (∀ e, outcome = .failure e →
        (get_answer question documents outcome).1 = contentNotAvailableMsg
        ∨ (get_answer question documents outcome).1 = rateLimitMsg
        ∨ (get_answer question documents outcome).1 = configErrorMsg
        ∨ (get_answer question documents outcome).1 = timeoutMsg
        ∨ (get_answer question documents outcome).1 = genericErrorMsg e) := by
  constructor
  · intro h
    subst h
    rfl
  · intro e he
    subst he
    cases documents with
    | nil => exact Or.inl rfl
    | cons a t =>
      cases hcls : classifyErr e with
      | quota =>
        refine Or.inr (Or.inl ?_)
        simp [get_answer, hcls]
      | auth =>
        refine Or.inr (Or.inr (Or.inl ?_))
        simp [get_answer, hcls]
      | timeout =>
        refine Or.inr (Or.inr (Or.inr (Or.inl ?_)))
        simp [get_answer, hcls]
      | generic =>
        refine Or.inr (Or.inr (Or.inr (Or.inr ?_)))
        simp [get_answer, hcls]

/-- Witness for C10 at concrete inputs: the empty-document fixed answer with
no invocation, and a concrete uncategorized exception mapped to a fallback. -/
theorem c10_get_answer_total_witness :
    get_answer "q" [] (.success "hello") = (contentNotAvailableMsg, false)
    ∧ ((get_answer "q" [⟨"web content"⟩] (.failure "boom")).1
          = contentNotAvailableMsg
        ∨ (get_answer "q" [⟨"web content"⟩] (.failure "boom")).1 = rateLimitMsg
        ∨ (get_answer "q" [⟨"web content"⟩] (.failure "boom")).1 = configErrorMsg
        ∨ (get_answer "q" [⟨"web content"⟩] (.failure "boom")).1 = timeoutMsg
        ∨ (get_answer "q" [⟨"web content"⟩] (.failure "boom")).1
          = genericErrorMsg "boom") :=
  ⟨(c10_get_answer_total "q" [] (.success "hello")).1 rfl,
    (c10_get_answer_total "q" [⟨"web content"⟩] (.failure "boom")).2 "boom" rfl⟩
